import Mathlib

/-!
Verification development for the PayWhirl Python API client (`paywhirl.py`).

The client is a single class `PayWhirl` holding three immutable strings
(`_api_key`, `_api_secret`, `_api_base`) set at construction.  Every public
endpoint method is a thin wrapper around one of two private dispatchers,
`_get` and `_post` (lines 654-680 of the source), which:
  * default the parameter mapping to an empty dict when `None` is passed,
  * build the URL as `self._api_base` plus a slash plus `endpoint`,
  * build the headers dict with the key and secret under the names
    `api_key` and `api_secret`,
  * print the URL and headers to standard output,
  * send the request via `requests.get` / `requests.post` with the mapping
    passed as the `params` keyword (query string, not request body),
  * on status code 200 (`requests.codes` at key `ok`): decode the body as
    JSON with `resp.json()`, close the response, and return the decoded
    value; a JSON decoding failure propagates as an exception before
    `resp.close()` is reached,
  * on any other status code: return the integer status code without
    touching the body and without closing the response.

The embedding below is a shallow one.  The HTTP transport (the `requests`
library) is an external collaborator and is modelled as a function from the
outgoing request descriptor to a response; a response carries the status
code and the outcome that a call of `resp.json()` would produce (`some` decoded value,
or `none` when the body is not valid JSON and `resp.json()` raises).  The
observable side effects of one dispatch call (the `print`, the HTTP send,
and the `resp.close()`) are recorded in order in an event trace, and the
Python return-or-raise outcome is an `Except` value.
-/

namespace Paywhirl

/-- A JSON value, the result of decoding a response body. -/
inductive Json where
  | null
  | bool (b : Bool)
  | num (n : Int)
  | str (s : String)
  | arr (elems : List Json)
  | obj (fields : List (String × Json))

/-- A parameter mapping: a Python dict in insertion order, with string keys. -/
abbrev Params := List (String × Json)

/-- The HTTP verb of a dispatch call: `requests.get` or `requests.post`. -/
inductive Verb where
  | GET
  | POST
deriving Repr, DecidableEq

/-- The outgoing request descriptor handed to the `requests` library:
the verb, the composed URL, the headers dict, the mapping passed as the
`params` keyword (sent as the query string), and the request body (the
source passes no `data`/`json` keyword, so the body mapping is empty). -/
structure Request where
  verb : Verb
  url : String
  headers : List (String × String)
  params : Params
  body : Params

/-- The answer of the transport: the status code, and what `resp.json()` yields on
this response: `some v` when the body decodes to the JSON value `v`, `none`
when the body is not valid JSON and `resp.json()` raises. -/
structure Response where
  status_code : Nat
  json_value : Option Json

/-- The transport: the `requests` library plus the network, abstracted as a
function from the outgoing request to the response it produces. -/
abbrev Transport := Request → Response

/-- The value a dispatch call returns: the decoded JSON body on success, or
the raw integer status code on any non-200 response. -/
inductive Result where
  | json (v : Json)
  | statusCode (c : Nat)

/-- The exception a dispatch call can let propagate: the JSON decoding
error raised by `resp.json()` on a 200 response with an undecodable body. -/
inductive PyExn where
  | jsonDecodeError
deriving Repr, DecidableEq

/-- One observable side effect of a dispatch call, in program order:
the `print(url, headers)` to standard output, the HTTP send, and the
`resp.close()`. -/
inductive Event where
  | printLine (url : String) (headers : List (String × String))
  | httpSend (req : Request)
  | respClose

/-- Everything observable about one dispatch call: the ordered side-effect
trace and the Python outcome (a returned value, or a propagated exception). -/
structure CallTrace where
  events : List Event
  outcome : Except PyExn Result

/-- The requests sent during a call, in order (projected from the trace). -/
def CallTrace.sentRequests (tr : CallTrace) : List Request :=
  tr.events.filterMap fun e =>
    match e with
    | Event.httpSend req => some req
    | _ => none

/-- The URLs of the requests sent during a call, in order. -/
def CallTrace.sentUrls (tr : CallTrace) : List String :=
  tr.sentRequests.map Request.url

/-- `requests.codes` at key `ok`, the integer 200. -/
def requestsCodesOk : Nat := 200

/-- The client object: the three strings stored by `__init__`
(source lines 38-54), immutable after construction. -/
structure PayWhirl where
  api_key : String
  api_secret : String
  api_base : String
deriving Repr, DecidableEq

/-- The default `api_base` argument of `__init__` (source line 42). -/
def defaultApiBase : String := "https://api.paywhirl.com"

/-- The request descriptor a dispatch call builds (source lines 657-660 and
671-674): URL built as the base, one slash, and the endpoint; headers dict with the key
under `api_key` and the secret under `api_secret`, the mapping given by the caller as
the `params` keyword, and no request body. -/
def PayWhirl.requestFor (pw : PayWhirl) (verb : Verb) (endpoint : String)
    (params : Params) : Request :=
  ⟨verb, pw.api_base ++ "/" ++ endpoint,
    [("api_key", pw.api_key), ("api_secret", pw.api_secret)], params, []⟩

/-- `_post` (source lines 654-666): default `params` to the empty dict,
build the URL and headers, print them, send via `requests.post`, then on
status 200 decode the body, close and return the decoded value (a decoding
failure raises before the close); on any other status return the code. -/
def PayWhirl.dispatchPost (pw : PayWhirl) (endpoint : String)
    (params : Option Params) (transport : Transport) : CallTrace :=
  let params := params.getD []
  let req := pw.requestFor Verb.POST endpoint params
  let resp := transport req
  if resp.status_code = requestsCodesOk then
    match resp.json_value with
    | some ret =>
        ⟨[Event.printLine req.url req.headers, Event.httpSend req,
          Event.respClose], Except.ok (Result.json ret)⟩
    | none =>
        ⟨[Event.printLine req.url req.headers, Event.httpSend req],
          Except.error PyExn.jsonDecodeError⟩
  else
    ⟨[Event.printLine req.url req.headers, Event.httpSend req],
      Except.ok (Result.statusCode resp.status_code)⟩

/-- `_get` (source lines 668-680): identical to `_post` except the verb. -/
def PayWhirl.dispatchGet (pw : PayWhirl) (endpoint : String)
    (params : Option Params) (transport : Transport) : CallTrace :=
  let params := params.getD []
  let req := pw.requestFor Verb.GET endpoint params
  let resp := transport req
  if resp.status_code = requestsCodesOk then
    match resp.json_value with
    | some ret =>
        ⟨[Event.printLine req.url req.headers, Event.httpSend req,
          Event.respClose], Except.ok (Result.json ret)⟩
    | none =>
        ⟨[Event.printLine req.url req.headers, Event.httpSend req],
          Except.error PyExn.jsonDecodeError⟩
  else
    ⟨[Event.printLine req.url req.headers, Event.httpSend req],
      Except.ok (Result.statusCode resp.status_code)⟩

/-- `get_customer` (source lines 85-97): a GET dispatch whose path is
`/customer/` followed by the formatted id. -/
def PayWhirl.get_customer (pw : PayWhirl) (customer_id : Int)
    (transport : Transport) : CallTrace :=
  pw.dispatchGet ("/customer/" ++ toString customer_id) none transport

/-- `get_customers` (source lines 56-83): a GET dispatch to `/customers`. -/
def PayWhirl.get_customers (pw : PayWhirl) (data : Params)
    (transport : Transport) : CallTrace :=
  pw.dispatchGet "/customers" (some data) transport

/-- `get_account` (source lines 593-596): a GET dispatch to `/account`. -/
def PayWhirl.get_account (pw : PayWhirl) (transport : Transport) : CallTrace :=
  pw.dispatchGet "/account" none transport

/-- `update_subscription` (source lines 327-343): build the dict with
`subscription_id` and `plan_id`, add `quantity` only when it is not `None`,
then a POST dispatch of that dict to `/update/subscription`. -/
def PayWhirl.update_subscription (pw : PayWhirl) (subscription_id : Int)
    (plan_id : Int) (quantity : Option Int) (transport : Transport) :
    CallTrace :=
  let data : Params := [("subscription_id", Json.num subscription_id),
                        ("plan_id", Json.num plan_id)]
  let data := match quantity with
    | some q => data ++ [("quantity", Json.num q)]
    | none => data
  pw.dispatchPost "/update/subscription" (some data) transport

/-- `unsubscribe_customer` (source lines 345-358): wrap the id into a dict
and POST it to `/unsubscribe/customer`. -/
def PayWhirl.unsubscribe_customer (pw : PayWhirl) (subscription_id : Int)
    (transport : Transport) : CallTrace :=
  pw.dispatchPost "/unsubscribe/customer"
    (some [("subscription_id", Json.num subscription_id)]) transport

/-! ## Helper lemmas about the shape of a dispatch trace -/

/-- The GET dispatcher sends exactly one request: the one it builds. -/
theorem dispatchGet_sentRequests (pw : PayWhirl) (e : String)
    (p : Option Params) (t : Transport) :
    (pw.dispatchGet e p t).sentRequests
      = [pw.requestFor Verb.GET e (p.getD [])] := by
  unfold PayWhirl.dispatchGet CallTrace.sentRequests
  dsimp only
  split
  · split <;> rfl
  · rfl

/-- The POST dispatcher sends exactly one request: the one it builds. -/
theorem dispatchPost_sentRequests (pw : PayWhirl) (e : String)
    (p : Option Params) (t : Transport) :
    (pw.dispatchPost e p t).sentRequests
      = [pw.requestFor Verb.POST e (p.getD [])] := by
  unfold PayWhirl.dispatchPost CallTrace.sentRequests
  dsimp only
  split
  · split <;> rfl
  · rfl

/-- The event trace of a GET dispatch: first the print of the URL and the
headers, then the HTTP send, then the close exactly when the response has
status 200 and a JSON-decodable body. -/
theorem dispatchGet_events (pw : PayWhirl) (e : String)
    (p : Option Params) (t : Transport) :
    (pw.dispatchGet e p t).events =
      Event.printLine (pw.api_base ++ "/" ++ e)
          [("api_key", pw.api_key), ("api_secret", pw.api_secret)] ::
        Event.httpSend (pw.requestFor Verb.GET e (p.getD [])) ::
        (if (t (pw.requestFor Verb.GET e (p.getD []))).status_code = 200 ∧
            ((t (pw.requestFor Verb.GET e (p.getD []))).json_value).isSome = true
         then [Event.respClose] else []) := by
  unfold PayWhirl.dispatchGet
  dsimp only
  rcases h : t (pw.requestFor Verb.GET e (p.getD [])) with ⟨c, jv⟩
  by_cases hc : c = 200
  · subst hc
    cases jv <;> simp [PayWhirl.requestFor, requestsCodesOk]
  · simp [hc, requestsCodesOk, PayWhirl.requestFor]

/-- The event trace of a POST dispatch, mirror image of the GET case. -/
theorem dispatchPost_events (pw : PayWhirl) (e : String)
    (p : Option Params) (t : Transport) :
    (pw.dispatchPost e p t).events =
      Event.printLine (pw.api_base ++ "/" ++ e)
          [("api_key", pw.api_key), ("api_secret", pw.api_secret)] ::
        Event.httpSend (pw.requestFor Verb.POST e (p.getD [])) ::
        (if (t (pw.requestFor Verb.POST e (p.getD []))).status_code = 200 ∧
            ((t (pw.requestFor Verb.POST e (p.getD []))).json_value).isSome = true
         then [Event.respClose] else []) := by
  unfold PayWhirl.dispatchPost
  dsimp only
  rcases h : t (pw.requestFor Verb.POST e (p.getD [])) with ⟨c, jv⟩
  by_cases hc : c = 200
  · subst hc
    cases jv <;> simp [PayWhirl.requestFor, requestsCodesOk]
  · simp [hc, requestsCodesOk, PayWhirl.requestFor]

/-! ## Claim theorems -/

/-- C1: for every dispatch call (GET or POST; every public endpoint method
returns the result of such a call unchanged), if the HTTP response has
status code 200 with a body decoding to a JSON value, the call returns that
JSON-decoded response body unchanged. -/
theorem c1_dispatch_200_returns_decoded_body (pw : PayWhirl) (e : String)
    (p : Option Params) (t : Transport) (j j' : Json)
    (hg : t (pw.requestFor Verb.GET e (p.getD [])) = ⟨200, some j⟩)
    (hp : t (pw.requestFor Verb.POST e (p.getD [])) = ⟨200, some j'⟩) :
    (pw.dispatchGet e p t).outcome = Except.ok (Result.json j) ∧
    (pw.dispatchPost e p t).outcome = Except.ok (Result.json j') := by
  constructor
  · unfold PayWhirl.dispatchGet
    dsimp only
    rw [hg]
    rfl
  · unfold PayWhirl.dispatchPost
    dsimp only
    rw [hp]
    rfl

/-- Witness for C1: a concrete client and a mocked transport answering 200
with the JSON number 1; both dispatchers return that decoded value. -/
theorem c1_witness :
    ((PayWhirl.mk "k" "s" defaultApiBase).dispatchGet "/account" none
        (fun _ => ⟨200, some (Json.num 1)⟩)).outcome
      = Except.ok (Result.json (Json.num 1)) ∧
    ((PayWhirl.mk "k" "s" defaultApiBase).dispatchPost "/account" none
        (fun _ => ⟨200, some (Json.num 1)⟩)).outcome
      = Except.ok (Result.json (Json.num 1)) :=
  c1_dispatch_200_returns_decoded_body (PayWhirl.mk "k" "s" defaultApiBase)
    "/account" none (fun _ => ⟨200, some (Json.num 1)⟩)
    (Json.num 1) (Json.num 1) rfl rfl

/-- C2: for every dispatch call (GET or POST), on any response whose status
code is not 200 the call returns that raw integer status code as an ordinary
return value: the outcome is a normal return (never a raised exception) and
does not depend on the response body, which is left unparsed. -/
theorem c2_dispatch_non200_returns_status_code (pw : PayWhirl) (e : String)
    (p : Option Params) (t : Transport)
    (hg : (t (pw.requestFor Verb.GET e (p.getD []))).status_code ≠ 200)
    (hp : (t (pw.requestFor Verb.POST e (p.getD []))).status_code ≠ 200) :
    (pw.dispatchGet e p t).outcome
      = Except.ok (Result.statusCode
          (t (pw.requestFor Verb.GET e (p.getD []))).status_code) ∧
    (pw.dispatchPost e p t).outcome
      = Except.ok (Result.statusCode
          (t (pw.requestFor Verb.POST e (p.getD []))).status_code) := by
  constructor
  · unfold PayWhirl.dispatchGet
    dsimp only
    rw [if_neg]
    exact hg
  · unfold PayWhirl.dispatchPost
    dsimp only
    rw [if_neg]
    exact hp

/-- Witness for C2: a mocked transport answering 404 with a body that is not
even valid JSON; both dispatchers return the integer 404. -/
theorem c2_witness :
    ((PayWhirl.mk "k" "s" defaultApiBase).dispatchGet "/account" none
        (fun _ => ⟨404, none⟩)).outcome = Except.ok (Result.statusCode 404) ∧
    ((PayWhirl.mk "k" "s" defaultApiBase).dispatchPost "/account" none
        (fun _ => ⟨404, none⟩)).outcome = Except.ok (Result.statusCode 404) :=
  c2_dispatch_non200_returns_status_code (PayWhirl.mk "k" "s" defaultApiBase)
    "/account" none (fun _ => ⟨404, none⟩) (by decide) (by decide)

/-- C3 counterexample: with the default base URL, get_customer 42 sends its
request to the URL with a doubled separator, because the dispatcher inserts
a slash even though the path already starts with one; the URL the claim
states is not the one sent. -/
theorem c3_counterexample :
    ((PayWhirl.mk "k" "s" defaultApiBase).get_customer 42
        (fun _ => ⟨200, some Json.null⟩)).sentUrls
      = ["https://api.paywhirl.com//customer/42"] ∧
    ((PayWhirl.mk "k" "s" defaultApiBase).get_customer 42
        (fun _ => ⟨200, some Json.null⟩)).sentUrls
      ≠ ["https://api.paywhirl.com/customer/42"] := by
  constructor
  · rfl
  · intro h
    have : ("https://api.paywhirl.com//customer/42" : String)
        = "https://api.paywhirl.com/customer/42" := by
      have h2 : ((PayWhirl.mk "k" "s" defaultApiBase).get_customer 42
          (fun _ => ⟨200, some Json.null⟩)).sentUrls
          = ["https://api.paywhirl.com//customer/42"] := rfl
      rw [h2] at h
      exact List.head_eq_of_cons_eq h
    exact absurd this (by decide)

/-- C3 amended: every dispatch call targets the base URL, then exactly one
inserted separator, then the endpoint path, with no normalization; since
every endpoint method passes a path that itself starts with a separator,
the sent URL carries a doubled separator: get_customer applied to an id
targets the base, a slash, then the path slash-customer-slash-id. -/
theorem c3_amended_dispatch_url (pw : PayWhirl) (e : String)
    (p : Option Params) (t : Transport) (cid : Int) :
    (pw.dispatchGet e p t).sentUrls = [pw.api_base ++ "/" ++ e] ∧
    (pw.dispatchPost e p t).sentUrls = [pw.api_base ++ "/" ++ e] ∧
    (pw.get_customer cid t).sentUrls
      = [pw.api_base ++ "/" ++ ("/customer/" ++ toString cid)] := by
  refine ⟨?_, ?_, ?_⟩
  · simp [CallTrace.sentUrls, dispatchGet_sentRequests, PayWhirl.requestFor]
  · simp [CallTrace.sentUrls, dispatchPost_sentRequests, PayWhirl.requestFor]
  · simp [PayWhirl.get_customer, CallTrace.sentUrls, dispatchGet_sentRequests,
      PayWhirl.requestFor]

/-- C4: on both the GET and the POST path, the single outgoing request
carries exactly the headers api_key bound to the construction-time key and
api_secret bound to the construction-time secret, verbatim. -/
theorem c4_dispatch_headers_credentials (pw : PayWhirl) (e : String)
    (p : Option Params) (t : Transport) :
    (pw.dispatchGet e p t).sentRequests.map Request.headers
      = [[("api_key", pw.api_key), ("api_secret", pw.api_secret)]] ∧
    (pw.dispatchPost e p t).sentRequests.map Request.headers
      = [[("api_key", pw.api_key), ("api_secret", pw.api_secret)]] := by
  constructor
  · simp [dispatchGet_sentRequests, PayWhirl.requestFor]
  · simp [dispatchPost_sentRequests, PayWhirl.requestFor]

/-- C5 counterexample: on a 404 response neither dispatcher ever closes the
response: no close event occurs in the trace of either call, so the
underlying resource is not released on the failure exit path. -/
theorem c5_counterexample :
    Event.respClose ∉ ((PayWhirl.mk "k" "s" defaultApiBase).dispatchGet
        "/account" none (fun _ => ⟨404, none⟩)).events ∧
    Event.respClose ∉ ((PayWhirl.mk "k" "s" defaultApiBase).dispatchPost
        "/account" none (fun _ => ⟨404, none⟩)).events := by
  constructor
  · simp [dispatchGet_events]
  · simp [dispatchPost_events]

/-- C5 amended: the response is closed before returning only on the fully
successful path: the close event occurs in the trace of a dispatch call if
and only if the response has status 200 and a JSON-decodable body; on any
non-200 response, and on a 200 response whose body fails to decode, the
response is never closed. -/
theorem c5_amended_close_iff_success (pw : PayWhirl) (e : String)
    (p : Option Params) (t : Transport) :
    (Event.respClose ∈ (pw.dispatchGet e p t).events ↔
      (t (pw.requestFor Verb.GET e (p.getD []))).status_code = 200 ∧
      ((t (pw.requestFor Verb.GET e (p.getD []))).json_value).isSome = true) ∧
    (Event.respClose ∈ (pw.dispatchPost e p t).events ↔
      (t (pw.requestFor Verb.POST e (p.getD []))).status_code = 200 ∧
      ((t (pw.requestFor Verb.POST e (p.getD []))).json_value).isSome = true) := by
  constructor
  · rw [dispatchGet_events]
    by_cases hc : (t (pw.requestFor Verb.GET e (p.getD []))).status_code = 200 ∧
        ((t (pw.requestFor Verb.GET e (p.getD []))).json_value).isSome = true
    · simp [hc]
    · simp only [if_neg hc]
      simp [hc]
  · rw [dispatchPost_events]
    by_cases hc : (t (pw.requestFor Verb.POST e (p.getD []))).status_code = 200 ∧
        ((t (pw.requestFor Verb.POST e (p.getD []))).json_value).isSome = true
    · simp [hc]
    · simp only [if_neg hc]
      simp [hc]

/-- C6: every dispatch call, GET and POST alike, first writes the full
request URL together with the headers - the api_key and api_secret values
in the clear - to standard output, and only then performs the HTTP send:
the first two events of every trace are exactly that print followed by the
send, so the output side effect occurs on every endpoint method call. -/
theorem c6_prints_url_and_credentials_before_send (pw : PayWhirl)
    (e : String) (p : Option Params) (t : Transport) :
    (pw.dispatchGet e p t).events.take 2
      = [Event.printLine (pw.api_base ++ "/" ++ e)
           [("api_key", pw.api_key), ("api_secret", pw.api_secret)],
         Event.httpSend (pw.requestFor Verb.GET e (p.getD []))] ∧
    (pw.dispatchPost e p t).events.take 2
      = [Event.printLine (pw.api_base ++ "/" ++ e)
           [("api_key", pw.api_key), ("api_secret", pw.api_secret)],
         Event.httpSend (pw.requestFor Verb.POST e (p.getD []))] := by
  constructor
  · rw [dispatchGet_events]
    rfl
  · rw [dispatchPost_events]
    rfl

/-- C7: a POST dispatch attaches the supplied parameter mapping to the
request as query-string parameters, while the request body stays empty. -/
theorem c7_post_params_as_query_not_body (pw : PayWhirl) (e : String)
    (p : Params) (t : Transport) :
    (pw.dispatchPost e (some p) t).sentRequests.map Request.params = [p] ∧
    (pw.dispatchPost e (some p) t).sentRequests.map Request.body = [[]] := by
  constructor
  · simp [dispatchPost_sentRequests, PayWhirl.requestFor]
  · simp [dispatchPost_sentRequests, PayWhirl.requestFor]

/-- C8: update_subscription with quantity omitted sends exactly the mapping
of subscription_id and plan_id, with no quantity key present; with a
quantity supplied it additionally appends that quantity pair. -/
theorem c8_update_subscription_params (pw : PayWhirl)
    (sid pid q : Int) (t : Transport) :
    (pw.update_subscription sid pid none t).sentRequests.map Request.params
      = [[("subscription_id", Json.num sid), ("plan_id", Json.num pid)]] ∧
    "quantity" ∉ ([("subscription_id", Json.num sid),
        ("plan_id", Json.num pid)] : Params).map Prod.fst ∧
    (pw.update_subscription sid pid (some q) t).sentRequests.map Request.params
      = [[("subscription_id", Json.num sid), ("plan_id", Json.num pid),
          ("quantity", Json.num q)]] := by
  refine ⟨?_, ?_, ?_⟩
  · simp [PayWhirl.update_subscription, dispatchPost_sentRequests,
      PayWhirl.requestFor]
  · simp
  · simp [PayWhirl.update_subscription, dispatchPost_sentRequests,
      PayWhirl.requestFor]

/-- C9: a dispatch call reads nothing but the three fields fixed at
construction: two clients agreeing on key, secret and base URL behave
identically on every call, so no hidden state exists and repeating an
identical call with the same transport yields the identical trace and
result. -/
theorem c9_no_hidden_state (pw pw' : PayWhirl)
    (h1 : pw.api_key = pw'.api_key) (h2 : pw.api_secret = pw'.api_secret)
    (h3 : pw.api_base = pw'.api_base) (e : String) (p : Option Params)
    (t : Transport) :
    pw.dispatchGet e p t = pw'.dispatchGet e p t ∧
    pw.dispatchPost e p t = pw'.dispatchPost e p t := by
  have hpw : pw = pw' := by
    cases pw
    cases pw'
    simp_all
  subst hpw
  exact ⟨rfl, rfl⟩

/-- Witness for C9: two separately constructed clients with equal fields
(the base URL written once via its default and once literally) produce the
same traces on a concrete call. -/
theorem c9_witness :
    (PayWhirl.mk "k" "s" defaultApiBase).dispatchGet "/account" none
        (fun _ => ⟨200, some Json.null⟩)
      = (PayWhirl.mk "k" "s" "https://api.paywhirl.com").dispatchGet
          "/account" none (fun _ => ⟨200, some Json.null⟩) ∧
    (PayWhirl.mk "k" "s" defaultApiBase).dispatchPost "/account" none
        (fun _ => ⟨200, some Json.null⟩)
      = (PayWhirl.mk "k" "s" "https://api.paywhirl.com").dispatchPost
          "/account" none (fun _ => ⟨200, some Json.null⟩) :=
  c9_no_hidden_state (PayWhirl.mk "k" "s" defaultApiBase)
    (PayWhirl.mk "k" "s" "https://api.paywhirl.com") rfl rfl rfl
    "/account" none (fun _ => ⟨200, some Json.null⟩)

/-- C10: on a 200 response whose body is not valid JSON, both dispatchers
let the JSON-decoding exception propagate: the outcome is the raised
decoding error, and no result value is returned. -/
theorem c10_200_undecodable_body_raises (pw : PayWhirl) (e : String)
    (p : Option Params) (t : Transport)
    (hg : t (pw.requestFor Verb.GET e (p.getD [])) = ⟨200, none⟩)
    (hp : t (pw.requestFor Verb.POST e (p.getD [])) = ⟨200, none⟩) :
    (pw.dispatchGet e p t).outcome = Except.error PyExn.jsonDecodeError ∧
    (pw.dispatchPost e p t).outcome = Except.error PyExn.jsonDecodeError := by
  constructor
  · unfold PayWhirl.dispatchGet
    dsimp only
    rw [hg]
    rfl
  · unfold PayWhirl.dispatchPost
    dsimp only
    rw [hp]
    rfl

/-- Witness for C10: a mocked transport answering 200 with an undecodable
body makes both dispatchers raise the decoding error. -/
theorem c10_witness :
    ((PayWhirl.mk "k" "s" defaultApiBase).dispatchGet "/account" none
        (fun _ => ⟨200, none⟩)).outcome
      = Except.error PyExn.jsonDecodeError ∧
    ((PayWhirl.mk "k" "s" defaultApiBase).dispatchPost "/account" none
        (fun _ => ⟨200, none⟩)).outcome
      = Except.error PyExn.jsonDecodeError :=
  c10_200_undecodable_body_raises (PayWhirl.mk "k" "s" defaultApiBase)
    "/account" none (fun _ => ⟨200, none⟩) rfl rfl

end Paywhirl
